import Mathlib

/-
  Verification development for the MoonAI automated phone-interview backend.

  The embedding models the call-session orchestrator of src/backend/server.js
  and the AI helper functions of interview.js (src/unnamed/part_000).
  External effects (audio download, transcoding, speech transcription, chat
  completion) are passed in as oracle arguments of type Except String String:
  ok carries the text the provider returned, error a failure.  Each HTTP
  handler becomes a pure function from the call identifier, the callback
  payload, the oracles and the current session store to a StepResult holding
  the response outcome, the new store, and the list of chat-completion
  requests the handler issued.
-/

namespace MoonAI

/-- A conversation entry as pushed onto state.history and as sent to the
chat-completion provider: a role tag (user, assistant or system) and text. -/
structure Entry where
  role : String
  content : String
deriving Repr, DecidableEq

/-- The phase field of a session.  The value ended of the spec has no stored
representation in the code: reaching it deletes the session from the map. -/
inductive Phase
  | introduction
  | question1
  | question2
  | qna
deriving Repr, DecidableEq

/-- Position of a phase in the forward order of the spec. -/
def phaseIdx : Phase → Nat
  | Phase.introduction => 0
  | Phase.question1 => 1
  | Phase.question2 => 2
  | Phase.qna => 3

/-- The per-call session state stored in the interviews map
(server.js lines 74-81, plus the recording-URL fields the handlers add). -/
structure CallSession where
  jobRole : String
  jobDescription : String
  history : List Entry
  phase : Phase
  candidatePhone : String
  lastActivity : Nat
  recordingUrl : Option String := none
  answer1Url : Option String := none
  answer2Url : Option String := none
deriving Repr, DecidableEq

/-- The interviews map: call SID to session state. -/
abbrev Store := String → Option CallSession

def Store.empty : Store := fun _ => none

def Store.set (s : Store) (k : String) (v : CallSession) : Store :=
  fun q => if q = k then some v else s q

def Store.delete (s : Store) (k : String) : Store :=
  fun q => if q = k then none else s q

/-- One primitive TwiML voice directive as emitted by the handlers. -/
inductive Directive
  | say (text : String)
  | play (digits : String)
  | record (action : String) (maxLength : Nat) (finishOnKey : String)
      (playBeep : Bool) (timeout : Nat)
  | hangup
deriving Repr, DecidableEq

/-- How a handler invocation ends: a 404 response for an unknown call SID,
a 200 response carrying TwiML directives, or an exception escaping the
async handler (no response is sent in that case). -/
inductive HandlerOutcome
  | notFound
  | ok (directives : List Directive)
  | thrown (err : String)
deriving Repr, DecidableEq

/-- Result of one handler invocation: the response outcome, the store after
all mutations, and the chat-completion requests issued (each a message
list), in order. -/
structure StepResult where
  outcome : HandlerOutcome
  store : Store
  aiRequests : List (List Entry)

/-- Modelled from the spec: getInterviewPrompt lives in prompt.js, which is
not among the provided sources.  Per the spec it is a fixed system/persona
message parameterized by role and jobDescription. -/
def getInterviewPrompt (role jobDescription : String) : List Entry :=
  [⟨"system", "You are an interviewer for the " ++ role ++
      " position. Job description: " ++ jobDescription⟩]

/-- The message list getAiResponse (interview.js lines 76-84) sends to the
chat-completion provider: the persona messages, then the
conversationHistory argument (which defaults to the empty list), then the
instruction text as a final user turn. -/
def getAiResponseMessages (text role jobDescription : String)
    (conversationHistory : List Entry) : List Entry :=
  getInterviewPrompt role jobDescription ++ conversationHistory ++
    [⟨"user", text⟩]

/-- Session seeding done by /make-call for one successfully placed call
(server.js lines 74-81). -/
def makeCallSeed (callSid jobRole jobDescription phone : String) (now : Nat)
    (store : Store) : Store :=
  Store.set store callSid
    { jobRole := jobRole, jobDescription := jobDescription, history := [],
      phase := Phase.introduction, candidatePhone := phone,
      lastActivity := now }

/-- Body of /process-intro once the session was found
(server.js lines 137-171).  The ts oracle is the combined outcome of
downloadAudio, convertAudio and transcribeAudio inside the try block; the
ai oracle is getAiResponse, which is awaited outside any try, so its
failure escapes the handler after the phase and history mutations already
happened. -/
def introOnSession (callSid : String) (recordingUrl : Option String)
    (ts ai : Except String String) (store : Store) (state0 : CallSession) :
    StepResult :=
  let state1 := { state0 with recordingUrl := recordingUrl,
                              phase := Phase.question1 }
  let state2 := match ts with
    | Except.ok t => { state1 with history := state1.history ++ [⟨"user", t⟩] }
    | Except.error _ => state1
  let request := getAiResponseMessages "Ask first technical question"
      state2.jobRole state2.jobDescription []
  match ai with
  | Except.error e => ⟨HandlerOutcome.thrown e, Store.set store callSid state2, [request]⟩
  | Except.ok aiResponse =>
    let state3 := { state2 with
      history := state2.history ++ [⟨"assistant", aiResponse⟩] }
    ⟨HandlerOutcome.ok [Directive.say aiResponse, Directive.play "9",
        Directive.record ("/process-answer1?callSid=" ++ callSid) 120 "#" true 5],
      Store.set store callSid state3, [request]⟩

/-- The /process-intro handler (server.js lines 128-172): the 404 guard,
then the body above. -/
def processIntro (callSid : String) (recordingUrl : Option String)
    (ts ai : Except String String) (store : Store) : StepResult :=
  match store callSid with
  | none => ⟨HandlerOutcome.notFound, store, []⟩
  | some state0 => introOnSession callSid recordingUrl ts ai store state0

/-- Body of /process-answer1 once the session was found (server.js lines
184-216): same shape as the intro body but it stores answer1Url, moves to
question2 and asks for the second technical question. -/
def answer1OnSession (callSid : String) (recordingUrl : Option String)
    (ts ai : Except String String) (store : Store) (state0 : CallSession) :
    StepResult :=
  let state1 := { state0 with answer1Url := recordingUrl,
                              phase := Phase.question2 }
  let state2 := match ts with
    | Except.ok t => { state1 with history := state1.history ++ [⟨"user", t⟩] }
    | Except.error _ => state1
  let request := getAiResponseMessages "Ask second technical question"
      state2.jobRole state2.jobDescription []
  match ai with
  | Except.error e => ⟨HandlerOutcome.thrown e, Store.set store callSid state2, [request]⟩
  | Except.ok aiResponse =>
    let state3 := { state2 with
      history := state2.history ++ [⟨"assistant", aiResponse⟩] }
    ⟨HandlerOutcome.ok [Directive.say aiResponse, Directive.play "9",
        Directive.record ("/process-answer2?callSid=" ++ callSid) 120 "#" true 5],
      Store.set store callSid state3, [request]⟩

/-- The /process-answer1 handler (server.js lines 175-217). -/
def processAnswer1 (callSid : String) (recordingUrl : Option String)
    (ts ai : Except String String) (store : Store) : StepResult :=
  match store callSid with
  | none => ⟨HandlerOutcome.notFound, store, []⟩
  | some state0 => answer1OnSession callSid recordingUrl ts ai store state0

/-- The fixed Q and A invitation spoken by /process-answer2
(server.js line 245); it is said but never appended to history. -/
def qnaInvite : String :=
  "Thank you for your answers! Do you have any questions for me? If yes, please ask after the beep. If not, just stay silent or press # to end the call."

/-- Body of /process-answer2 once the session was found (server.js lines
229-260): stores answer2Url, moves to qna, appends the transcribed answer
on success, and speaks the fixed invitation with no chat-completion call. -/
def answer2OnSession (callSid : String) (recordingUrl : Option String)
    (ts : Except String String) (store : Store) (state0 : CallSession) :
    StepResult :=
  let state1 := { state0 with answer2Url := recordingUrl,
                              phase := Phase.qna }
  let state2 := match ts with
    | Except.ok t => { state1 with history := state1.history ++ [⟨"user", t⟩] }
    | Except.error _ => state1
  ⟨HandlerOutcome.ok [Directive.say qnaInvite, Directive.play "9",
      Directive.record ("/process-qna?callSid=" ++ callSid) 60 "#" true 5],
    Store.set store callSid state2, []⟩

/-- The /process-answer2 handler (server.js lines 220-261). -/
def processAnswer2 (callSid : String) (recordingUrl : Option String)
    (ts : Except String String) (store : Store) : StepResult :=
  match store callSid with
  | none => ⟨HandlerOutcome.notFound, store, []⟩
  | some state0 => answer2OnSession callSid recordingUrl ts store state0

/-- The closing remark of /process-qna when the candidate has no questions
(server.js line 279). -/
def qnaClosing : String :=
  "Thank you for your time! We will review your answers and get back to you soon. Goodbye!"

/-- The follow-up re-invitation of /process-qna (server.js line 300). -/
def qnaFollowUp : String :=
  "Do you have any other questions? If yes, please ask after the beep. If not, just stay silent or press # to end the call."

/-- The apology spoken by the catch block of /process-qna
(server.js line 317). -/
def qnaApology : String :=
  "Sorry, I encountered an error. Thank you for your time! Goodbye!"

/-- Body of /process-qna once the session was found (server.js lines
274-322).  When Digits is the terminator or no recording arrived it closes
the call and deletes the session without consulting the oracles.  Otherwise one try block covers
both transcription and generation: an error in either leads to the
apology, hangup and session deletion; a mutation already applied inside
the try (the user history push) persists until the deletion removes the
whole session. -/
def qnaOnSession (callSid : String) (recordingUrl : Option String)
    (digits : Option String) (ts ai : Except String String)
    (store : Store) (state0 : CallSession) : StepResult :=
  if digits = some "#" ∨ recordingUrl = none then
    ⟨HandlerOutcome.ok [Directive.say qnaClosing, Directive.hangup],
      Store.delete store callSid, []⟩
  else
    match ts with
    | Except.error _ =>
        ⟨HandlerOutcome.ok [Directive.say qnaApology, Directive.hangup],
          Store.delete store callSid, []⟩
    | Except.ok question =>
      let state1 := { state0 with
        history := state0.history ++ [⟨"user", question⟩] }
      let request := getAiResponseMessages
          ("Answer this question: " ++ question)
          state1.jobRole state1.jobDescription []
      match ai with
      | Except.error _ =>
          ⟨HandlerOutcome.ok [Directive.say qnaApology, Directive.hangup],
            Store.delete (Store.set store callSid state1) callSid, [request]⟩
      | Except.ok aiResponse =>
        let state2 := { state1 with
          history := state1.history ++ [⟨"assistant", aiResponse⟩] }
        ⟨HandlerOutcome.ok [Directive.say aiResponse, Directive.play "9",
            Directive.say qnaFollowUp, Directive.play "9",
            Directive.record ("/process-qna?callSid=" ++ callSid) 60 "#" true 5],
          Store.set store callSid state2, [request]⟩

/-- The /process-qna handler (server.js lines 264-323). -/
def processQna (callSid : String) (recordingUrl : Option String)
    (digits : Option String) (ts ai : Except String String)
    (store : Store) : StepResult :=
  match store callSid with
  | none => ⟨HandlerOutcome.notFound, store, []⟩
  | some state0 =>
    qnaOnSession callSid recordingUrl digits ts ai store state0

/-- One inbound callback delivery with its payload and oracle outcomes. -/
inductive Callback
  | intro (recordingUrl : Option String) (ts ai : Except String String)
  | answer1 (recordingUrl : Option String) (ts ai : Except String String)
  | answer2 (recordingUrl : Option String) (ts : Except String String)
  | qna (recordingUrl digits : Option String) (ts ai : Except String String)

/-- Dispatch of a callback to its handler. -/
def step (cb : Callback) (callSid : String) (store : Store) : StepResult :=
  match cb with
  | Callback.intro r ts ai => processIntro callSid r ts ai store
  | Callback.answer1 r ts ai => processAnswer1 callSid r ts ai store
  | Callback.answer2 r ts => processAnswer2 callSid r ts store
  | Callback.qna r d ts ai => processQna callSid r d ts ai store

/-- The phase whose record directive schedules the given callback: the
handler each phase hands the provider as the next action URL. -/
def expectedPhase : Callback → Phase
  | Callback.intro _ _ _ => Phase.introduction
  | Callback.answer1 _ _ _ => Phase.question1
  | Callback.answer2 _ _ => Phase.question2
  | Callback.qna _ _ _ _ => Phase.qna

/-- Forward successor of a phase in the order of the spec, with qna
self-looping. -/
def phaseSucc : Phase → Phase
  | Phase.introduction => Phase.question1
  | Phase.question1 => Phase.question2
  | Phase.question2 => Phase.qna
  | Phase.qna => Phase.qna

/-- The phase value each handler writes, as a function of the phase the
session had on entry: the first three handlers assign a constant, the qna
handler never touches the phase field. -/
def forcedPhase : Callback → Phase → Phase
  | Callback.intro _ _ _, _ => Phase.question1
  | Callback.answer1 _ _ _, _ => Phase.question2
  | Callback.answer2 _ _, _ => Phase.qna
  | Callback.qna _ _ _ _, p => p

/-- The final-score record shape returned by generateFinalScore. -/
structure ScoreRecord where
  technicalScore : Int
  communicationScore : Int
  justification : String
  completionStatus : String
deriving Repr, DecidableEq

/-- The sentinel record returned by the catch block of generateFinalScore
(interview.js lines 180-185). -/
def scoringErrorRecord : ScoreRecord :=
  { technicalScore := 0, communicationScore := 0,
    justification := "Scoring failed due to system error",
    completionStatus := "error" }

/-- generateFinalScore (interview.js lines 145-187): the provider call and
the JSON parse are the two fallible steps; both sit inside one try block
whose catch returns the sentinel record.  providerResult is the chat
completion outcome and parse models JSON.parse (none when parsing throws).
The function is total: no exception reaches the caller. -/
def generateFinalScore (providerResult : Except String String)
    (parse : String → Option ScoreRecord) : ScoreRecord :=
  match providerResult with
  | Except.error _ => scoringErrorRecord
  | Except.ok s =>
    match parse s with
    | none => scoringErrorRecord
    | some r => r

/- Store access lemmas shared by the claim proofs. -/

theorem Store.get_set_self (s : Store) (k : String) (v : CallSession) :
    Store.set s k v k = some v := by
  simp [Store.set]

theorem Store.get_set_ne (s : Store) (k q : String) (v : CallSession)
    (h : q ≠ k) : Store.set s k v q = s q := by
  simp [Store.set, h]

theorem Store.get_delete_self (s : Store) (k : String) :
    Store.delete s k k = none := by
  simp [Store.delete]

theorem Store.get_delete_ne (s : Store) (k q : String) (h : q ≠ k) :
    Store.delete s k q = s q := by
  simp [Store.delete, h]

theorem Store.delete_set (s : Store) (k : String) (v : CallSession) :
    Store.delete (Store.set s k v) k = Store.delete s k := by
  funext q
  by_cases hq : q = k <;> simp [Store.delete, Store.set, hq]

/- Unfolding lemmas: each handler on a found session reduces to its body. -/

theorem processIntro_some (callSid : String) (r : Option String)
    (ts ai : Except String String) (store : Store) (s : CallSession)
    (h : store callSid = some s) :
    processIntro callSid r ts ai store
      = introOnSession callSid r ts ai store s := by
  simp [processIntro, h]

theorem processAnswer1_some (callSid : String) (r : Option String)
    (ts ai : Except String String) (store : Store) (s : CallSession)
    (h : store callSid = some s) :
    processAnswer1 callSid r ts ai store
      = answer1OnSession callSid r ts ai store s := by
  simp [processAnswer1, h]

theorem processAnswer2_some (callSid : String) (r : Option String)
    (ts : Except String String) (store : Store) (s : CallSession)
    (h : store callSid = some s) :
    processAnswer2 callSid r ts store
      = answer2OnSession callSid r ts store s := by
  simp [processAnswer2, h]

theorem processQna_some (callSid : String) (r d : Option String)
    (ts ai : Except String String) (store : Store) (s : CallSession)
    (h : store callSid = some s) :
    processQna callSid r d ts ai store
      = qnaOnSession callSid r d ts ai store s := by
  simp [processQna, h]

/-- Every handler leaves the whole store alone when the call SID has no
session. -/
theorem step_on_missing (cb : Callback) (callSid : String) (store : Store)
    (h : store callSid = none) :
    step cb callSid store = ⟨HandlerOutcome.notFound, store, []⟩ := by
  cases cb <;>
    simp [step, processIntro, processAnswer1, processAnswer2, processQna, h]

/-- Every handler only ever writes or deletes the entry of its own call
SID: entries of other keys are untouched. -/
theorem step_other_key (cb : Callback) (callSid k : String) (store : Store)
    (hk : k ≠ callSid) : (step cb callSid store).store k = store k := by
  cases cb with
  | intro r ts ai =>
    cases h : store callSid with
    | none => simp [step, processIntro, h]
    | some s =>
      simp only [step]
      rw [processIntro_some callSid r ts ai store s h]
      unfold introOnSession
      cases ts <;> cases ai <;> simp [Store.set, hk]
  | answer1 r ts ai =>
    cases h : store callSid with
    | none => simp [step, processAnswer1, h]
    | some s =>
      simp only [step]
      rw [processAnswer1_some callSid r ts ai store s h]
      unfold answer1OnSession
      cases ts <;> cases ai <;> simp [Store.set, hk]
  | answer2 r ts =>
    cases h : store callSid with
    | none => simp [step, processAnswer2, h]
    | some s =>
      simp only [step]
      rw [processAnswer2_some callSid r ts store s h]
      unfold answer2OnSession
      cases ts <;> simp [Store.set, hk]
  | qna r d ts ai =>
    cases h : store callSid with
    | none => simp [step, processQna, h]
    | some s =>
      simp only [step]
      rw [processQna_some callSid r d ts ai store s h]
      unfold qnaOnSession
      by_cases hc : d = some "#" ∨ r = none
      · simp [hc, Store.delete, hk]
      · rw [if_neg hc]
        cases ts with
        | error e => simp [Store.delete, hk]
        | ok q => cases ai <;> simp [Store.delete, Store.set, hk]

/-- Shape of the store a handler leaves behind for a found session: either
the session was deleted, or it was overwritten by a session whose history
extends the old one by a suffix, whose lastActivity is unchanged, and
whose phase is the value the handler forces. -/
theorem step_session_shape (cb : Callback) (callSid : String)
    (store : Store) (s : CallSession) (hs : store callSid = some s) :
    (step cb callSid store).store = Store.delete store callSid ∨
    ∃ s' tl, (step cb callSid store).store = Store.set store callSid s' ∧
      s'.history = s.history ++ tl ∧
      s'.lastActivity = s.lastActivity ∧
      s'.phase = forcedPhase cb s.phase := by
  cases cb with
  | intro r ts ai =>
    simp only [step]
    rw [processIntro_some callSid r ts ai store s hs]
    unfold introOnSession
    right
    cases ts with
    | error e =>
      cases ai with
      | error e2 => exact ⟨_, [], rfl, by simp, rfl, rfl⟩
      | ok a => exact ⟨_, [⟨"assistant", a⟩], rfl, by simp, rfl, rfl⟩
    | ok t =>
      cases ai with
      | error e2 => exact ⟨_, [⟨"user", t⟩], rfl, by simp, rfl, rfl⟩
      | ok a =>
        exact ⟨_, [⟨"user", t⟩, ⟨"assistant", a⟩], rfl, by simp, rfl, rfl⟩
  | answer1 r ts ai =>
    simp only [step]
    rw [processAnswer1_some callSid r ts ai store s hs]
    unfold answer1OnSession
    right
    cases ts with
    | error e =>
      cases ai with
      | error e2 => exact ⟨_, [], rfl, by simp, rfl, rfl⟩
      | ok a => exact ⟨_, [⟨"assistant", a⟩], rfl, by simp, rfl, rfl⟩
    | ok t =>
      cases ai with
      | error e2 => exact ⟨_, [⟨"user", t⟩], rfl, by simp, rfl, rfl⟩
      | ok a =>
        exact ⟨_, [⟨"user", t⟩, ⟨"assistant", a⟩], rfl, by simp, rfl, rfl⟩
  | answer2 r ts =>
    simp only [step]
    rw [processAnswer2_some callSid r ts store s hs]
    unfold answer2OnSession
    right
    cases ts with
    | error e => exact ⟨_, [], rfl, by simp, rfl, rfl⟩
    | ok t => exact ⟨_, [⟨"user", t⟩], rfl, by simp, rfl, rfl⟩
  | qna r d ts ai =>
    simp only [step]
    rw [processQna_some callSid r d ts ai store s hs]
    unfold qnaOnSession
    by_cases hc : d = some "#" ∨ r = none
    · rw [if_pos hc]
      exact Or.inl rfl
    · rw [if_neg hc]
      cases ts with
      | error e => exact Or.inl rfl
      | ok q =>
        cases ai with
        | error e2 => exact Or.inl (Store.delete_set store callSid _)
        | ok a =>
          exact Or.inr
            ⟨_, [⟨"user", q⟩, ⟨"assistant", a⟩], rfl, by simp, rfl, rfl⟩

/- A concrete fully successful interview run, used by the end-to-end
scenario and the counterexamples: one candidate, every oracle succeeds. -/

def demoStore0 : Store :=
  makeCallSeed "CA1" "Backend Engineer" "Build and maintain REST APIs"
    "+15551234567" 0 Store.empty

def demoStep1 : StepResult :=
  step (Callback.intro (some "rec0") (Except.ok "I am Sam") (Except.ok "Q1"))
    "CA1" demoStore0

def demoStep2 : StepResult :=
  step (Callback.answer1 (some "rec1") (Except.ok "A1") (Except.ok "Q2"))
    "CA1" demoStep1.store

def demoStep3 : StepResult :=
  step (Callback.answer2 (some "rec2") (Except.ok "A2")) "CA1" demoStep2.store

def demoStep4 : StepResult :=
  step (Callback.qna (some "rec3") none (Except.ok "What is the team size")
    (Except.ok "Five")) "CA1" demoStep3.store

/-- A session already sitting in the qna phase, for the out-of-order
delivery counterexample. -/
def demoQnaSession : CallSession :=
  { jobRole := "Backend Engineer",
    jobDescription := "Build and maintain REST APIs",
    history := [], phase := Phase.qna, candidatePhone := "+15551234567",
    lastActivity := 0 }

def demoQnaStore : Store := Store.set Store.empty "CA1" demoQnaSession

/-- C6: invoking any phase-transition handler with a call identifier that has
no session responds not-found, leaves the store (hence every other session)
untouched, and issues no directives and no AI requests. -/
theorem unknown_call_not_found (cb : Callback) (callSid : String)
    (store : Store) (h : store callSid = none) :
    step cb callSid store = ⟨HandlerOutcome.notFound, store, []⟩ := by
  cases cb <;>
    simp [step, processIntro, processAnswer1, processAnswer2, processQna, h]

/-- Witness for C6: the intro handler on an empty store at a concrete
identifier responds not-found with the store unchanged. -/
theorem unknown_call_not_found_witness :
    step (Callback.intro none (Except.error "e") (Except.error "e")) "CAx"
      Store.empty = ⟨HandlerOutcome.notFound, Store.empty, []⟩ :=
  unknown_call_not_found _ "CAx" Store.empty rfl

/-- C10: in the qna handler the terminator digit wins over a present
recording: with Digits equal to the hash key the handler emits the closing
remark and hangup and deletes the session, and the result is the same for
every transcription and generation oracle (so the recording is never
transcribed) with no AI request issued and no history entry appended (the
whole session is gone). -/
theorem qna_terminator_precedence (callSid url : String)
    (ts ai : Except String String) (store : Store) (s : CallSession)
    (h : store callSid = some s) :
    processQna callSid (some url) (some "#") ts ai store
      = ⟨HandlerOutcome.ok [Directive.say qnaClosing, Directive.hangup],
          Store.delete store callSid, []⟩ := by
  simp [processQna, qnaOnSession, h]

/-- Witness for C10 at a concrete session and oracles. -/
theorem qna_terminator_precedence_witness :
    processQna "CA1" (some "rec") (some "#") (Except.ok "t") (Except.ok "a")
        demoQnaStore
      = ⟨HandlerOutcome.ok [Directive.say qnaClosing, Directive.hangup],
          Store.delete demoQnaStore "CA1", []⟩ :=
  qna_terminator_precedence "CA1" "rec" (Except.ok "t") (Except.ok "a")
    demoQnaStore demoQnaSession rfl

/-- C8: whenever the provider call errors or the JSON parse fails,
generateFinalScore returns the sentinel record with zero scores and
completionStatus error; being a total function of its oracles, it never
propagates an exception to the caller. -/
theorem generateFinalScore_error_sentinel
    (parse : String → Option ScoreRecord) (pr : Except String String)
    (h : (∃ e, pr = Except.error e) ∨
         ∃ s, pr = Except.ok s ∧ parse s = none) :
    generateFinalScore pr parse = scoringErrorRecord ∧
    scoringErrorRecord.technicalScore = 0 ∧
    scoringErrorRecord.communicationScore = 0 ∧
    scoringErrorRecord.completionStatus = "error" := by
  obtain ⟨e, rfl⟩ | ⟨s, rfl, hp⟩ := h
  · exact ⟨rfl, rfl, rfl, rfl⟩
  · exact ⟨by simp [generateFinalScore, hp], rfl, rfl, rfl⟩

/-- Witness for C8: a concrete provider error and a concrete parse failure
both yield the sentinel. -/
theorem generateFinalScore_error_sentinel_witness :
    generateFinalScore (Except.error "boom") (fun _ => none)
        = scoringErrorRecord ∧
    generateFinalScore (Except.ok "not json") (fun _ => none)
        = scoringErrorRecord :=
  ⟨(generateFinalScore_error_sentinel (fun _ => none) (Except.error "boom")
      (Or.inl ⟨"boom", rfl⟩)).1,
   (generateFinalScore_error_sentinel (fun _ => none) (Except.ok "not json")
      (Or.inr ⟨"not json", rfl, rfl⟩)).1⟩

/-- The session stored for CA1 by the demo call seeding. -/
def demoSession0 : CallSession :=
  { jobRole := "Backend Engineer",
    jobDescription := "Build and maintain REST APIs",
    history := [], phase := Phase.introduction,
    candidatePhone := "+15551234567", lastActivity := 0 }

/-- The session stored for CA1 after the successful introduction step of
the demo run. -/
def demoSession1 : CallSession :=
  { demoSession0 with
    history := [⟨"user", "I am Sam"⟩, ⟨"assistant", "Q1"⟩],
    phase := Phase.question1, recordingUrl := some "rec0" }

/-- C7: history is append-only across every handler invocation for every
session (the invoked call and all others): any session still present after
a step has its old history as a prefix — same entries at the same indices,
length no smaller — and history entries disappear only with whole-session
deletion. -/
theorem history_append_only (cb : Callback) (callSid k : String)
    (store : Store) (s s' : CallSession) (hs : store k = some s)
    (hs' : (step cb callSid store).store k = some s') :
    s.history <+: s'.history := by
  by_cases hk : k = callSid
  · subst hk
    rcases step_session_shape cb k store s hs with
      hdel | ⟨s2, tl, hset, hh, _, _⟩
    · rw [hdel, Store.get_delete_self] at hs'
      exact Option.noConfusion hs'
    · rw [hset, Store.get_set_self] at hs'
      obtain rfl := Option.some.inj hs'
      exact ⟨tl, hh.symm⟩
  · rw [step_other_key cb callSid k store hk, hs] at hs'
    obtain rfl := Option.some.inj hs'
    exact ⟨[], by simp⟩

/-- The session the demo qna store holds after a successful qna self-loop
with question q and answer a. -/
def demoQnaSessionAfter : CallSession :=
  { demoQnaSession with history := [⟨"user", "q"⟩, ⟨"assistant", "a"⟩] }

/-- Witness for C7: a concrete qna self-loop extends the history of the
stored session, keeping the old history as a prefix. -/
theorem history_append_only_witness :
    demoQnaSession.history <+: demoQnaSessionAfter.history :=
  history_append_only
    (Callback.qna (some "rec") none (Except.ok "q") (Except.ok "a"))
    "CA1" "CA1" demoQnaStore demoQnaSession demoQnaSessionAfter
    (by decide) (by decide)

/-- C9 amended: lastActivity is written only at session creation; no
phase-transition handler updates it, so any session present after a
handler invocation carries exactly the lastActivity it had before. -/
theorem last_activity_never_updated (cb : Callback) (callSid k : String)
    (store : Store) (s' : CallSession)
    (hs' : (step cb callSid store).store k = some s') :
    ∃ s, store k = some s ∧ s'.lastActivity = s.lastActivity := by
  by_cases hk : k = callSid
  · subst hk
    cases hs : store k with
    | none =>
      rw [step_on_missing cb k store hs] at hs'
      have h2 : store k = some s' := hs'
      rw [hs] at h2
      exact Option.noConfusion h2
    | some s =>
      rcases step_session_shape cb k store s hs with
        hdel | ⟨s2, tl, hset, _, hla, _⟩
      · rw [hdel, Store.get_delete_self] at hs'
        exact Option.noConfusion hs'
      · rw [hset, Store.get_set_self] at hs'
        obtain rfl := Option.some.inj hs'
        exact ⟨s, rfl, hla⟩
  · rw [step_other_key cb callSid k store hk] at hs'
    exact ⟨s', hs', rfl⟩

/-- Witness for C9 amended: after the concrete introduction callback the
surviving session keeps the lastActivity of the seeded session. -/
theorem last_activity_never_updated_witness :
    ∃ s, demoStore0 "CA1" = some s ∧
      demoSession1.lastActivity = s.lastActivity :=
  last_activity_never_updated
    (Callback.intro (some "rec0") (Except.ok "I am Sam") (Except.ok "Q1"))
    "CA1" "CA1" demoStore0 demoSession1 (by decide)

/-- Counterexample to C9 as stated: the session is created with
lastActivity 0; the introduction callback, arriving strictly later (at any
time other than 0, for instance 1), leaves lastActivity at 0, so after
that callback lastActivity does not equal the callback time — handlers
never update the field. -/
theorem last_activity_stale_counterexample :
    (demoStep1.store "CA1").map CallSession.lastActivity = some 0 ∧
    (0 : Nat) ≠ 1 :=
  ⟨by decide, by decide⟩

/-- C1 amended: each handler writes a fixed phase, so when callbacks are
delivered in protocol order — the handler invoked matches the phase that
scheduled it — the phase moves exactly one step forward along
introduction, question1, question2, qna, with qna self-looping (reaching
ended is session deletion).  Handlers do not guard on the stored phase, so
out-of-order deliveries can move the phase backward (see the
counterexample). -/
theorem phase_forward_in_protocol_order (cb : Callback) (callSid : String)
    (store : Store) (s s' : CallSession) (hs : store callSid = some s)
    (hp : s.phase = expectedPhase cb)
    (hs' : (step cb callSid store).store callSid = some s') :
    s'.phase = phaseSucc s.phase := by
  rcases step_session_shape cb callSid store s hs with
    hdel | ⟨s2, tl, hset, _, _, hph⟩
  · rw [hdel, Store.get_delete_self] at hs'
    exact Option.noConfusion hs'
  · rw [hset, Store.get_set_self] at hs'
    obtain rfl := Option.some.inj hs'
    rw [hph, hp]
    cases cb <;> rfl

/-- Witness for C1 amended: the introduction callback delivered in protocol
order advances the concrete seeded session from introduction to
question1. -/
theorem phase_forward_in_protocol_order_witness :
    demoSession1.phase = phaseSucc demoSession0.phase :=
  phase_forward_in_protocol_order
    (Callback.intro (some "rec0") (Except.ok "I am Sam") (Except.ok "Q1"))
    "CA1" demoStore0 demoSession0 demoSession1 (by decide) (by decide)
    (by decide)

/-- Counterexample to C1 as stated: delivering the introduction callback to
a session already in the qna phase (an out-of-order delivery the handlers
do not guard against) rewrites the phase to question1 — a backward move
from index 3 to index 1 in the forward order. -/
theorem phase_backward_counterexample :
    ((step (Callback.intro (some "rec") (Except.ok "t") (Except.ok "a"))
        "CA1" demoQnaStore).store "CA1").map CallSession.phase
      = some Phase.question1 ∧
    phaseIdx Phase.question1 < phaseIdx Phase.qna :=
  ⟨by decide, by decide⟩

/-- Counterexample to C2 as stated: in the fully successful demo run (one
candidate, introduction plus two answers, all oracles succeeding) the
session reaches qna with 5 history entries, not 6: /process-answer2
appends only the transcribed user answer and speaks a fixed invitation
that is never pushed to history. -/
theorem qna_history_count_counterexample :
    (demoStep3.store "CA1").map
        (fun s => (s.phase, s.history.length)) = some (Phase.qna, 5) ∧
    (5 : Nat) ≠ 6 :=
  ⟨by decide, by decide⟩

/-- C2 amended: in the end-to-end scenario where a call is initiated for
one candidate and the introduction plus two answer recordings process
successfully, the session moves through question1 with 2 history entries
and question2 with 4, and reaches qna with exactly 5 history entries
(2 after the introduction step, 2 more after the first answer, and only 1
more after the second answer). -/
theorem end_to_end_run :
    (demoStep1.store "CA1").map
        (fun s => (s.phase, s.history.length))
      = some (Phase.question1, 2) ∧
    (demoStep2.store "CA1").map
        (fun s => (s.phase, s.history.length))
      = some (Phase.question2, 4) ∧
    (demoStep3.store "CA1").map
        (fun s => (s.phase, s.history.length))
      = some (Phase.qna, 5) :=
  ⟨by decide, by decide, by decide⟩

/-- Counterexample to C3 as stated: at the qna transition of the demo run
the session holds 5 history entries, yet the chat-completion request the
handler issues has exactly 2 messages — the persona message and the final
instruction turn — and none of the history entries sit between them: the
handlers never pass the history to getAiResponse. -/
theorem prompt_omits_history_counterexample :
    demoStep4.aiRequests =
      [[⟨"system", "You are an interviewer for the Backend Engineer position. Job description: Build and maintain REST APIs"⟩,
        ⟨"user", "Answer this question: What is the team size"⟩]] ∧
    (demoStep3.store "CA1").map (fun s => s.history.length) = some 5 :=
  ⟨by decide, by decide⟩

/-- C3 amended: every chat-completion request any handler issues consists
of the persona messages for the session followed directly by the single
instruction turn; the session history is not included, because the
handlers call getAiResponse without the conversationHistory argument,
which therefore stays empty. -/
theorem prompt_built_without_history (cb : Callback) (callSid : String)
    (store : Store) (r : List Entry)
    (hr : r ∈ (step cb callSid store).aiRequests) :
    ∃ s instr, store callSid = some s ∧
      r = getInterviewPrompt s.jobRole s.jobDescription
            ++ [⟨"user", instr⟩] := by
  cases cb with
  | intro rec ts ai =>
    cases h : store callSid with
    | none =>
      rw [step_on_missing _ _ _ h] at hr
      exact absurd hr (List.not_mem_nil r)
    | some s =>
      simp only [step] at hr
      rw [processIntro_some callSid rec ts ai store s h] at hr
      unfold introOnSession at hr
      cases ts <;> cases ai <;>
        · rw [List.mem_singleton] at hr
          exact ⟨s, "Ask first technical question", rfl,
            by rw [hr]; simp [getAiResponseMessages]⟩
  | answer1 rec ts ai =>
    cases h : store callSid with
    | none =>
      rw [step_on_missing _ _ _ h] at hr
      exact absurd hr (List.not_mem_nil r)
    | some s =>
      simp only [step] at hr
      rw [processAnswer1_some callSid rec ts ai store s h] at hr
      unfold answer1OnSession at hr
      cases ts <;> cases ai <;>
        · rw [List.mem_singleton] at hr
          exact ⟨s, "Ask second technical question", rfl,
            by rw [hr]; simp [getAiResponseMessages]⟩
  | answer2 rec ts =>
    cases h : store callSid with
    | none =>
      rw [step_on_missing _ _ _ h] at hr
      exact absurd hr (List.not_mem_nil r)
    | some s =>
      simp only [step] at hr
      rw [processAnswer2_some callSid rec ts store s h] at hr
      unfold answer2OnSession at hr
      cases ts <;> exact absurd hr (List.not_mem_nil r)
  | qna rec d ts ai =>
    cases h : store callSid with
    | none =>
      rw [step_on_missing _ _ _ h] at hr
      exact absurd hr (List.not_mem_nil r)
    | some s =>
      simp only [step] at hr
      rw [processQna_some callSid rec d ts ai store s h] at hr
      unfold qnaOnSession at hr
      by_cases hc : d = some "#" ∨ rec = none
      · rw [if_pos hc] at hr
        exact absurd hr (List.not_mem_nil r)
      · rw [if_neg hc] at hr
        cases ts with
        | error e => exact absurd hr (List.not_mem_nil r)
        | ok q =>
          cases ai <;>
            · rw [List.mem_singleton] at hr
              exact ⟨s, "Answer this question: " ++ q, rfl,
                by rw [hr]; simp [getAiResponseMessages]⟩

/-- Witness for C3 amended: the concrete qna request of the demo run is
exactly the persona message followed by the instruction turn. -/
theorem prompt_built_without_history_witness :
    ∃ s instr, demoStep3.store "CA1" = some s ∧
      ([⟨"system", "You are an interviewer for the Backend Engineer position. Job description: Build and maintain REST APIs"⟩,
        ⟨"user", "Answer this question: What is the team size"⟩]
          : List Entry)
        = getInterviewPrompt s.jobRole s.jobDescription
            ++ [⟨"user", instr⟩] :=
  prompt_built_without_history
    (Callback.qna (some "rec3") none (Except.ok "What is the team size")
      (Except.ok "Five"))
    "CA1" demoStep3.store _ (by decide)

/-- Counterexample to C4 as stated: in the qna handler a transcription
failure does not let the interview proceed: with a recording present and
no terminator digit, a failing transcription sends the handler into its
catch block, which speaks the apology, hangs up and deletes the session —
the call ends instead of continuing. -/
theorem qna_transcription_failure_ends_call :
    (step (Callback.qna (some "rec") none (Except.error "whisper down")
        (Except.ok "a")) "CA1" demoQnaStore).outcome
      = HandlerOutcome.ok [Directive.say qnaApology, Directive.hangup] ∧
    (step (Callback.qna (some "rec") none (Except.error "whisper down")
        (Except.ok "a")) "CA1" demoQnaStore).store "CA1" = none :=
  ⟨by decide, by decide⟩

/-- C4 amended: in the introduction, first-answer and second-answer
handlers a transcription failure appends no user entry and the interview
proceeds — the handler still speaks the next prompt and schedules the next
recording, with no hangup; in the qna handler, whose try block also covers
transcription, a transcription failure instead ends the call with the
apology and hangup and deletes the session (likewise appending nothing). -/
theorem transcription_failure_policy (callSid : String) (store : Store)
    (s : CallSession) (h : store callSid = some s) (e url a : String) :
    (((processIntro callSid (some url) (Except.error e) (Except.ok a)
        store).store callSid).map CallSession.history
      = some (s.history ++ [⟨"assistant", a⟩])) ∧
    ((processIntro callSid (some url) (Except.error e) (Except.ok a)
        store).outcome
      = HandlerOutcome.ok [Directive.say a, Directive.play "9",
          Directive.record ("/process-answer1?callSid=" ++ callSid)
            120 "#" true 5]) ∧
    (((processAnswer1 callSid (some url) (Except.error e) (Except.ok a)
        store).store callSid).map CallSession.history
      = some (s.history ++ [⟨"assistant", a⟩])) ∧
    ((processAnswer1 callSid (some url) (Except.error e) (Except.ok a)
        store).outcome
      = HandlerOutcome.ok [Directive.say a, Directive.play "9",
          Directive.record ("/process-answer2?callSid=" ++ callSid)
            120 "#" true 5]) ∧
    (((processAnswer2 callSid (some url) (Except.error e)
        store).store callSid).map CallSession.history = some s.history) ∧
    ((processAnswer2 callSid (some url) (Except.error e) store).outcome
      = HandlerOutcome.ok [Directive.say qnaInvite, Directive.play "9",
          Directive.record ("/process-qna?callSid=" ++ callSid)
            60 "#" true 5]) ∧
    ((processQna callSid (some url) none (Except.error e) (Except.ok a)
        store).outcome
      = HandlerOutcome.ok [Directive.say qnaApology, Directive.hangup]) ∧
    ((processQna callSid (some url) none (Except.error e) (Except.ok a)
        store).store callSid = none) := by
  rw [processIntro_some callSid (some url) (Except.error e) (Except.ok a)
      store s h,
    processAnswer1_some callSid (some url) (Except.error e) (Except.ok a)
      store s h,
    processAnswer2_some callSid (some url) (Except.error e) store s h,
    processQna_some callSid (some url) none (Except.error e) (Except.ok a)
      store s h]
  unfold introOnSession answer1OnSession answer2OnSession qnaOnSession
  refine ⟨?_, rfl, ?_, rfl, ?_, rfl, ?_, ?_⟩
  · simp [Store.get_set_self]
  · simp [Store.get_set_self]
  · simp [Store.get_set_self]
  · simp
  · simp [Store.get_delete_self]

/-- Witness for C4 amended: the introduction handler on a concrete session
with failing transcription appends only the assistant question. -/
theorem transcription_failure_policy_witness :
    ((processIntro "CA1" (some "rec") (Except.error "down") (Except.ok "Q1")
        demoQnaStore).store "CA1").map CallSession.history
      = some (demoQnaSession.history ++ [⟨"assistant", "Q1"⟩]) :=
  (transcription_failure_policy "CA1" demoQnaStore demoQnaSession
    (by decide) "down" "rec" "Q1").1

/-- Counterexample to C5 as stated: in the introduction handler a
generation failure does not produce an apology or hangup and does not
delete the session: getAiResponse is awaited outside any try block, so the
exception escapes the handler with no voice directive sent, and the
session is still in the store (its phase already advanced). -/
theorem intro_generation_failure_escapes :
    (step (Callback.intro (some "rec0") (Except.ok "I am Sam")
        (Except.error "openai down")) "CA1" demoStore0).outcome
      = HandlerOutcome.thrown "openai down" ∧
    ((step (Callback.intro (some "rec0") (Except.ok "I am Sam")
        (Except.error "openai down")) "CA1" demoStore0).store "CA1").isSome
      = true :=
  ⟨by decide, by decide⟩

/-- C5 amended: only the qna handler implements the fatal-generation
policy — on generation failure it emits the apology line plus hangup and
deletes the session; in the introduction and first-answer handlers a
generation failure escapes as an unhandled exception: no directive is
emitted and the session remains in the store with its mutations applied
(the second-answer handler issues no generation at all). -/
theorem generation_failure_policy (callSid : String) (store : Store)
    (s : CallSession) (h : store callSid = some s) (e url t : String) :
    ((processQna callSid (some url) none (Except.ok t) (Except.error e)
        store).outcome
      = HandlerOutcome.ok [Directive.say qnaApology, Directive.hangup]) ∧
    ((processQna callSid (some url) none (Except.ok t) (Except.error e)
        store).store callSid = none) ∧
    ((processIntro callSid (some url) (Except.ok t) (Except.error e)
        store).outcome = HandlerOutcome.thrown e) ∧
    (((processIntro callSid (some url) (Except.ok t) (Except.error e)
        store).store callSid).isSome = true) ∧
    ((processAnswer1 callSid (some url) (Except.ok t) (Except.error e)
        store).outcome = HandlerOutcome.thrown e) ∧
    (((processAnswer1 callSid (some url) (Except.ok t) (Except.error e)
        store).store callSid).isSome = true) := by
  rw [processQna_some callSid (some url) none (Except.ok t)
      (Except.error e) store s h,
    processIntro_some callSid (some url) (Except.ok t) (Except.error e)
      store s h,
    processAnswer1_some callSid (some url) (Except.ok t) (Except.error e)
      store s h]
  unfold qnaOnSession introOnSession answer1OnSession
  refine ⟨?_, ?_, rfl, ?_, rfl, ?_⟩
  · simp
  · simp [Store.get_delete_self, Store.delete_set]
  · simp [Store.get_set_self]
  · simp [Store.get_set_self]

/-- Witness for C5 amended: on a concrete qna session with failing
generation the handler apologises and hangs up, and the session is gone. -/
theorem generation_failure_policy_witness :
    (processQna "CA1" (some "rec") none (Except.ok "q")
        (Except.error "down") demoQnaStore).outcome
      = HandlerOutcome.ok [Directive.say qnaApology, Directive.hangup] :=
  (generation_failure_policy "CA1" demoQnaStore demoQnaSession
    (by decide) "down" "rec" "q").1

end MoonAI
